import Mathlib

/-!
Verification development for `fb_marketplace_vehicle_dom_update.py`.

The script drives a Playwright-controlled browser page.  The embedding below
translates the script's pure logic (string normalization, cookie
normalization, data-file parsing, configuration defaults) directly, and
models every interaction with the live page as an environment value: for
each call the script makes into the page (upload a photo, run the DOM patch
script, click a button, read a value back), the environment records the
result that call would have produced, including whether it raised an
exception.  The control flow around those calls is translated statement by
statement from the source.
-/

/-! ## String helpers (Python `str.strip`, `re.sub(r"\s+", " ", ·)`, `str.lower`, `str.isdigit`)

Characters are handled as `List Char` via `String.data` so that all
evaluation is kernel-reducible.  `Char.isWhitespace` covers the ASCII
whitespace that occurs in the script's data; `Char.isDigit` covers the
ASCII digits relevant to the numeric guard.
-/

/-- Lowercase every character (Python `str.lower applied to ASCII data`). -/
def lowerL (l : List Char) : List Char := l.map Char.toLower

/-- Strip leading and trailing whitespace (Python `str.strip`). -/
def trimL (l : List Char) : List Char :=
  ((l.dropWhile Char.isWhitespace).reverse.dropWhile Char.isWhitespace).reverse

/-- Collapse every maximal whitespace run to a single space,
mirroring `re.sub(r"\s+", " ", v)`.  The boolean argument records whether
the previous character was part of a whitespace run. -/
def collapseWsAux : Bool → List Char → List Char
  | _, [] => []
  | prevWs, c :: cs =>
    if c.isWhitespace then
      if prevWs then collapseWsAux true cs
      else ' ' :: collapseWsAux true cs
    else c :: collapseWsAux false cs

/-- Collapse whitespace runs to single spaces. -/
def collapseWs (l : List Char) : List Char := collapseWsAux false l

/-- Python `str.strip` on a `String`. -/
def pyStrip (s : String) : String := ⟨trimL s.data⟩

/-- Python `str.isdigit` (restricted to ASCII digits): true iff the string is
nonempty and every character is a digit. -/
def pyIsDigit (s : String) : Bool := !s.data.isEmpty && s.data.all Char.isDigit

/-- The normalizer `norm` of `enforce_model_input_commit` (src line 456):
`re.sub(r"\s+", " ", v).strip().lower()`. -/
def pyNorm (s : String) : List Char := lowerL (trimL (collapseWs s.data))

/-- Replace non-breaking spaces by plain spaces
(JS `.replace(/ /g, ' ')`). -/
def replaceNbsp (l : List Char) : List Char :=
  l.map (fun c => if c = ' ' then ' ' else c)

/-- The cleaning step of `modelTextMatches` in `patch_dom` (src line 837):
replace non-breaking spaces, collapse whitespace, trim. -/
def jsClean (l : List Char) : List Char := trimL (collapseWs (replaceNbsp l))

/-- `normalizedText` of `patch_dom` (src line 835): clean, then lowercase. -/
def normalizedTextL (l : List Char) : List Char := lowerL (jsClean l)

/-- `modelTextMatches` of `patch_dom` (src lines 836-840): reject empty or
purely numeric cleaned values, otherwise compare under `normalizedText`. -/
def modelTextMatches (v mv : String) : Bool :=
  let cleaned := jsClean v.data
  if cleaned.isEmpty || cleaned.all Char.isDigit then false
  else normalizedTextL cleaned == normalizedTextL mv.data

/-! ## The per-record reconciliation loop (`run_single_listing`, src lines 1651-1725)

`LoopFlags` holds the local variables of `run_single_listing` initialized at
src lines 1652-1661.  `IterEnv` is the page's behavior during one iteration
of the `while` loop: the result each helper call would return, and
optionally the point at which a call raises an exception (Playwright
timeout or any other error — both `except` arms at src lines 1708-1711
behave identically, so the exception's class is not recorded).
The per-record deadline is modeled by the length of the iteration list.
-/

structure LoopFlags where
  success : Bool := false
  dom_success : Bool := false
  photo_success : Bool := false
  draft_clicked : Bool := false
  leave_clicked : Bool := false
  dom_stable_count : Nat := 0
  attempts : Nat := 0
  selects_ok : Bool := false
  model_commit_ok : Bool := false
  mileage_commit_ok : Bool := false
  deriving DecidableEq

/-- The state at src lines 1652-1661, before the first iteration. -/
def initState : LoopFlags := {}

/-- Points inside the loop body where a call into the page can raise:
the initial waits and the recovery `goto` (src lines 1666-1671), the
`patch_dom` evaluation (1672), the diagnostic probe (1677-1686), and the
three enforcement calls (1688-1692).  `upload_photo`, `click_save_draft`
and `click_tinggalkan_halaman` catch all their exceptions internally and
return `False` instead, so they are not raise points. -/
inductive RaisePoint where
  | beforePhoto
  | beforePatch
  | atPatch
  | atDebug
  | atSelects
  | atModel
  | atMileage
  deriving DecidableEq

structure IterEnv where
  photoOk : Bool
  patchOk : Bool
  selectsOk : Bool
  modelOk : Bool
  mileageOk : Bool
  draftOk : Bool
  leaveOk : Bool
  raise : Option RaisePoint
  deriving DecidableEq

/-- Statement `attempts += 1` (src line 1665). -/
def bumpAttempts (s : LoopFlags) : LoopFlags := { s with attempts := s.attempts + 1 }

/-- Statements at src lines 1667-1668: the photo is uploaded only while
`photo_success` is still false (`upload_photo` returns a boolean and never
raises out). -/
def updatePhoto (e : IterEnv) (s : LoopFlags) : LoopFlags :=
  if s.photo_success then s else { s with photo_success := e.photoOk }

/-- Statements at src lines 1672-1676: record the `patch_dom` result and
update the stability counter. -/
def updatePatch (e : IterEnv) (s : LoopFlags) : LoopFlags :=
  { s with
    dom_success := e.patchOk
    dom_stable_count := if e.patchOk then s.dom_stable_count + 1 else 0 }

/-- The three enforcement calls at src lines 1688-1692, run only when the
stability counter has reached 2; a raise during one of them leaves the
later flags at their previous values. -/
def enforcePhase (e : IterEnv) (s : LoopFlags) : LoopFlags × Bool :=
  if e.raise = some RaisePoint.atSelects then (s, true)
  else if e.raise = some RaisePoint.atModel then
    ({ s with selects_ok := e.selectsOk }, true)
  else if e.raise = some RaisePoint.atMileage then
    ({ s with selects_ok := e.selectsOk, model_commit_ok := e.modelOk }, true)
  else
    ({ { s with selects_ok := e.selectsOk, model_commit_ok := e.modelOk } with
        mileage_commit_ok := e.mileageOk }, false)

/-- First half of the loop body (src lines 1665-1692): attempt counter,
photo upload, DOM patch, stability counter update, and — once the counter
reaches 2 — the select/model/mileage enforcement calls.  Returns the state
together with `true` when an exception escaped (to be caught at src lines
1708-1711).  A raise point the control flow does not reach this iteration
does not fire; a raise at `beforePatch` or at `atPatch` leaves the same
state, so the two cases are merged. -/
def phasePre (e : IterEnv) (s0 : LoopFlags) : LoopFlags × Bool :=
  if e.raise = some RaisePoint.beforePhoto then (bumpAttempts s0, true)
  else if e.raise = some RaisePoint.beforePatch ∨ e.raise = some RaisePoint.atPatch then
    (updatePhoto e (bumpAttempts s0), true)
  else if e.raise = some RaisePoint.atDebug ∧ e.patchOk = false ∧
      (bumpAttempts s0).attempts % 6 = 0 then
    (updatePatch e (updatePhoto e (bumpAttempts s0)), true)
  else if 2 ≤ (updatePatch e (updatePhoto e (bumpAttempts s0))).dom_stable_count then
    enforcePhase e (updatePatch e (updatePhoto e (bumpAttempts s0)))
  else (updatePatch e (updatePhoto e (bumpAttempts s0)), false)

/-- The guard of the save-draft click (src line 1693). -/
def draftGuard (s : LoopFlags) : Bool :=
  decide (2 ≤ s.dom_stable_count) && s.photo_success && s.selects_ok &&
    s.model_commit_ok && s.mileage_commit_ok && !s.draft_clicked

/-- The gated save-draft click (src lines 1693-1694). -/
def doDraft (e : IterEnv) (s : LoopFlags) : LoopFlags :=
  if draftGuard s then { s with draft_clicked := e.draftOk } else s

/-- The gated leave-page click (src lines 1695-1696). -/
def doLeave (e : IterEnv) (s : LoopFlags) : LoopFlags :=
  if s.draft_clicked && !s.leave_clicked then { s with leave_clicked := e.leaveOk }
  else s

/-- The success computation (src lines 1697-1705). -/
def setSuccess (s : LoopFlags) : LoopFlags :=
  { s with success := s.dom_success && s.photo_success && s.selects_ok &&
      s.model_commit_ok && s.mileage_commit_ok && s.draft_clicked &&
      s.leave_clicked }

/-- Second half of the loop body (src lines 1693-1705). -/
def phasePost (e : IterEnv) (s : LoopFlags) : LoopFlags :=
  setSuccess (doLeave e (doDraft e s))

/-- One iteration of the `while` loop body, as guarded by the
`try`/`except` at src lines 1664 and 1708-1711: the boolean reports
whether an exception was raised (and caught). -/
def iterBody (e : IterEnv) (s : LoopFlags) : LoopFlags × Bool :=
  if (phasePre e s).2 then ((phasePre e s).1, true)
  else (phasePost e (phasePre e s).1, false)

/-- The `while time.time() < deadline` loop (src lines 1663-1711): the
iteration list plays the role of the remaining wall-clock window.  On an
exception the loop simply continues (both `except` arms); otherwise it
breaks as soon as `success` is set (src lines 1706-1707). -/
def runLoop : List IterEnv → LoopFlags → LoopFlags
  | [], s => s
  | e :: es, s =>
    if (iterBody e s).2 then runLoop es (iterBody e s).1
    else if (iterBody e s).1.success then (iterBody e s).1
    else runLoop es (iterBody e s).1

/-! ## Model field commit (`enforce_model_input_commit`, src lines 442-573) -/

/-- The verification performed inside the per-container `try` of
`enforce_model_input_commit` (src lines 503-569), as a function of the
values read back from the page: `current`/`visible` after the first
commit (src lines 542-543), and `current2`/`visible2` after the numeric
fallback retype (src lines 566-567). -/
def model_commit_attempt (mv current visible current2 visible2 : String) : Bool :=
  let cur := pyStrip current
  let vis := pyStrip visible
  let current_ok := (pyNorm cur == pyNorm mv) && !(pyIsDigit cur)
  let visible_ok := (pyNorm vis == pyNorm mv) && !(pyIsDigit vis)
  if current_ok && visible_ok then true
  else if pyIsDigit cur || pyIsDigit vis then
    (pyNorm (pyStrip current2) == pyNorm mv) && (pyNorm (pyStrip visible2) == pyNorm mv)
  else false

/-- One labeled container from the page, as `enforce_model_input_commit`
sees it: whether it holds a text input (src lines 496-500), whether the
per-container `try` raises (src lines 570-571), and the four read-back
values. -/
structure ModelContainerEnv where
  hasInput : Bool
  raises : Bool
  current : String
  visible : String
  current2 : String
  visible2 : String
  deriving DecidableEq

/-- The container loop of `enforce_model_input_commit` (src lines 494-573).
The accumulator is the `required` flag: set once a container holds an
input, surviving a raised exception; the function returns `not required`
when no container verified (src line 573). -/
def enforceModelGo : List ModelContainerEnv → String → Bool → Bool
  | [], _, required => !required
  | c :: rest, mv, required =>
    if !c.hasInput then enforceModelGo rest mv required
    else if c.raises then enforceModelGo rest mv true
    else if model_commit_attempt mv c.current c.visible c.current2 c.visible2 then true
    else enforceModelGo rest mv true

/-- `enforce_model_input_commit` over the active containers (when the label
matches no container at all the source returns `True` at src line 451,
which coincides with running over the empty list). -/
def enforce_model_input_commit (cs : List ModelContainerEnv) (mv : String) : Bool :=
  enforceModelGo cs mv false

/-! ## Select fields (`select_combobox_option`, src lines 369-429, and
`enforce_select_fields`, src lines 432-439) -/

/-- The page's behavior for one `(label, option)` select field:
whether a combobox matching the label exists (src line 373), whether the
combobox click succeeded (src lines 377-383), whether text was typed into
its backing input (src lines 388-401 — the typing never decides the
outcome directly), whether some option element click succeeded
(src lines 403-421), and the display value re-read afterwards
(src line 428). -/
structure SelectEnv where
  comboExists : Bool
  comboClickOk : Bool
  typedIntoInput : Bool
  optionClicked : Bool
  finalValue : String
  deriving DecidableEq

/-- Case-insensitive containment: `option_text.lower() in final_value.lower()`.
`startsWithL a b` states that `a` is a leading segment of `b`. -/
def startsWithL : List Char → List Char → Bool
  | [], _ => true
  | _ :: _, [] => false
  | a :: as, b :: bs => a == b && startsWithL as bs

/-- `needle` occurs contiguously inside `haystack`. -/
def isSubL (needle : List Char) : List Char → Bool
  | [] => needle.isEmpty
  | c :: rest => startsWithL needle (c :: rest) || isSubL needle rest

/-- `select_combobox_option` (src lines 369-429): absent combobox is
reported satisfied; otherwise the combo click must succeed, an option
element must actually be clicked, and the re-read display value must equal
or case-insensitively contain the option text. -/
def select_combobox_option (e : SelectEnv) (option_text : String) : Bool :=
  if !e.comboExists then true
  else if !e.comboClickOk then false
  else if !e.optionClicked then false
  else e.finalValue == option_text ||
    isSubL (lowerL option_text.data) (lowerL e.finalValue.data)

/-- `enforce_select_fields` (src lines 432-439): the conjunction over all
fields; every field is attempted (no short-circuit), so the result is the
`and` of the per-field results. -/
def enforce_select_fields (fields : List (SelectEnv × String)) : Bool :=
  fields.all fun p => select_combobox_option p.1 p.2

/-! ## Leave-page confirmation (`click_tinggalkan_halaman`, src lines 253-339) -/

/-- One iteration of the 10-second poll loop (src lines 291-330): whether
one of the five selector-based clicks succeeded (src lines 292-302),
whether an exception escaped this iteration (the JS fallback `evaluate` at
src line 305 and the sleep at src line 330 are not individually guarded,
so such an exception propagates to the outer handler at src lines
337-339), and whether the JS fallback reported a click (src lines
305-328). -/
structure PollEnv where
  selClick : Bool
  raises : Bool
  jsClick : Bool
  deriving DecidableEq

/-- The whole environment of one `click_tinggalkan_halaman` call: the poll
iterations that fit in the window, and the result of the final
`leave_confirmation_present()` probe (src lines 255-276; its internal
exceptions yield `False`, i.e. absent). -/
structure LeaveEnv where
  polls : List PollEnv
  presentAfter : Bool
  deriving DecidableEq

/-- The poll loop: `some true` when a click succeeded and the function
returned `True`; `some false` when an exception escaped to the outer
handler (which returns `False`); `none` when the window closed without
either. -/
def leaveLoop : List PollEnv → Option Bool
  | [] => none
  | p :: rest =>
    if p.selClick then some true
    else if p.raises then some false
    else if p.jsClick then some true
    else leaveLoop rest

/-- `click_tinggalkan_halaman` (src lines 253-339): click result from the
poll window, else success exactly when no confirmation element is visible
after the window (src lines 332-336). -/
def click_tinggalkan_halaman (e : LeaveEnv) : Bool :=
  match leaveLoop e.polls with
  | some b => b
  | none => !e.presentAfter

/-! ## Data file loading (`load_listings_data`, src lines 137-162) and the
default record (`main`, src lines 1734-1737; `build_listing_config`,
src lines 1578-1611) -/

/-- JSON values as `json.loads` produces them (`null` loads as `None`). -/
inductive PyJson where
  | jnull
  | jbool (b : Bool)
  | jnum (n : Int)
  | jstr (s : String)
  | jarr (xs : List PyJson)
  | jobj (fields : List (String × PyJson))

/-- `isinstance(·, dict)`. -/
def PyJson.isDict : PyJson → Bool
  | .jobj _ => true
  | _ => false

/-- `dict.get` on the parsed object. -/
def objGet : List (String × PyJson) → String → Option PyJson
  | [], _ => none
  | (k, v) :: rest, key => if k = key then some v else objGet rest key

/-- `str(value)` for the values a listing entry may hold. -/
def pyToString : PyJson → String
  | .jnull => "None"
  | .jbool true => "True"
  | .jbool false => "False"
  | .jnum n => toString n
  | .jstr s => s
  | .jarr _ => "[...]"
  | .jobj _ => "{...}"

/-- The state of the record data file: missing, unparseable, or parsed. -/
inductive DataFileState where
  | absent
  | invalidJson
  | parsed (v : PyJson)

/-- `load_listings_data` (src lines 137-162). -/
def load_listings_data : DataFileState → List PyJson
  | .absent => []
  | .invalidJson => []
  | .parsed v =>
    match v with
    | .jarr xs => xs.filter PyJson.isDict
    | .jobj fields =>
      match objGet fields "listings" with
      | some (.jarr xs) => xs.filter PyJson.isDict
      | _ =>
        match objGet fields "listing_data" with
        | some (.jarr xs) => xs.filter PyJson.isDict
        | some (.jobj f2) => [.jobj f2]
        | _ => []
    | _ => []

/-- The fallback of `main` (src lines 1734-1737): an empty listing dict
when no listing was loaded. -/
def effectiveListings (df : DataFileState) : List PyJson :=
  let l := load_listings_data df
  if l.isEmpty then [.jobj []] else l

/-- `_pick_listing_value` (src lines 129-134) over the keys, skipping
missing keys, `None` values and values that are blank after `strip`. -/
def pickFrom (fields : List (String × PyJson)) : List String → String → String
  | [], fallback => fallback
  | k :: ks, fallback =>
    match objGet fields k with
    | none => pickFrom fields ks fallback
    | some .jnull => pickFrom fields ks fallback
    | some v =>
      let s := pyStrip (pyToString v)
      if s = "" then pickFrom fields ks fallback else s

/-- `_pick_listing_value` on a listing entry (entries are always dicts in
`main`; a non-dict yields the fallback). -/
def pickValue (listing : PyJson) (keys : List String) (fallback : String) : String :=
  match listing with
  | .jobj fields => pickFrom fields keys fallback
  | _ => fallback

/-- The module constants of src lines 35-70 that `apply_listing_globals`
overwrites, bundled as an explicit state. -/
structure Globals where
  TARGET_TEXT : String
  TARGET_YEAR_TEXT : String
  MAKE_INPUT_VALUE : String
  TOYOTA_INPUT_VALUE : String
  MODEL_INPUT_VALUE : String
  PRICE_INPUT_VALUE : String
  MILEAGE_INPUT_VALUE : String
  DESCRIPTION_TEXT : String
  LOCATION_TEXT : String
  deriving DecidableEq

/-- The initial values of those constants (src lines 37-70). -/
def initGlobals : Globals :=
  { TARGET_TEXT := "Mobil/Truk"
    TARGET_YEAR_TEXT := "2025"
    MAKE_INPUT_VALUE := "Avanza"
    TOYOTA_INPUT_VALUE := "Toyota"
    MODEL_INPUT_VALUE := "Avanza"
    PRICE_INPUT_VALUE := "200000"
    MILEAGE_INPUT_VALUE := "120000"
    DESCRIPTION_TEXT := "nego tipis km rendah"
    LOCATION_TEXT := "Bekasi" }

/-- `TARGET_URL` (src line 35). -/
def TARGET_URL : String := "https://www.facebook.com/marketplace/create/vehicle"

/-- `SELLING_URL` (src line 36). -/
def SELLING_URL : String := "https://www.facebook.com/marketplace/you/selling"

/-- The value fields of `ListingConfig` (src lines 1555-1567), without the
photo path, whose resolution is filesystem I/O outside these claims. -/
structure ListingConfig where
  target_url : String
  selling_url : String
  vehicle_type : String
  year : String
  make : String
  model : String
  price : String
  mileage : String
  description : String
  location : String
  deriving DecidableEq

/-- `build_listing_config` (src lines 1578-1611), with the current global
defaults passed explicitly. -/
def build_listing_config (g : Globals) (listing : PyJson) : ListingConfig :=
  { target_url := pickValue listing ["target_url"] TARGET_URL
    selling_url := pickValue listing ["selling_url"] SELLING_URL
    vehicle_type := pickValue listing ["vehicle_type", "jenis_kendaraan"] g.TARGET_TEXT
    year := pickValue listing ["year", "tahun"] g.TARGET_YEAR_TEXT
    make := pickValue listing ["make", "merek", "merk", "brand"] g.TOYOTA_INPUT_VALUE
    model := pickValue listing ["model"] g.MODEL_INPUT_VALUE
    price := pickValue listing ["price", "harga"] g.PRICE_INPUT_VALUE
    mileage := pickValue listing ["mileage", "jarak_tempuh", "jarak"] g.MILEAGE_INPUT_VALUE
    description := pickValue listing ["description", "keterangan"] g.DESCRIPTION_TEXT
    location := pickValue listing ["location", "lokasi"] g.LOCATION_TEXT }

/-- `apply_listing_globals` (src lines 1614-1633), statement by statement:
note src line 1633 assigns `config.model` to `MAKE_INPUT_VALUE`. -/
def apply_listing_globals (g : Globals) (c : ListingConfig) : Globals :=
  { g with
    TARGET_TEXT := c.vehicle_type
    TARGET_YEAR_TEXT := c.year
    TOYOTA_INPUT_VALUE := c.make
    MODEL_INPUT_VALUE := c.model
    PRICE_INPUT_VALUE := c.price
    MILEAGE_INPUT_VALUE := c.mileage
    DESCRIPTION_TEXT := c.description
    LOCATION_TEXT := c.location
    MAKE_INPUT_VALUE := c.model }

/-- The arguments `patch_dom` passes into its page script that feed the
make/model controls (src lines 1449-1452 and 1460). -/
structure PatchDomArgs where
  makeInputValue : String
  toyotaInputValue : String
  modelInputValue : String
  deriving DecidableEq

/-- Construction of those arguments from the globals (src lines 1435-1475). -/
def patchDomArgsOf (g : Globals) : PatchDomArgs :=
  { makeInputValue := g.MAKE_INPUT_VALUE
    toyotaInputValue := g.TOYOTA_INPUT_VALUE
    modelInputValue := g.MODEL_INPUT_VALUE }

/-- The value `patch_dom` writes into the control with id `makeInputId`
when it is an input element (src lines 1099-1102: `setControlValue(makeInput,
makeInputValue)`). -/
def makeInputWrittenValue (a : PatchDomArgs) : String := a.makeInputValue

/-! ## Cookie normalization (`normalize_cookies`, src lines 715-742) -/

/-- A raw cookie dict: `name`, `value` and `domain` are accessed with
mandatory indexing (src lines 725-727), the rest with `.get`. -/
structure RawCookie where
  name : String
  value : String
  domain : String
  path : Option String
  httpOnly : Option Bool
  secure : Option Bool
  sameSite : Option String
  session : Option Bool
  expirationDate : Option Int
  deriving DecidableEq

/-- A normalized cookie in the host schema. -/
structure NormCookie where
  name : String
  value : String
  domain : String
  path : String
  httpOnly : Bool
  secure : Bool
  sameSite : Option String
  expires : Option Int
  deriving DecidableEq

/-- `same_site_map` (src lines 716-721). -/
def same_site_map : List (String × String) :=
  [("lax", "Lax"), ("strict", "Strict"), ("no_restriction", "None"), ("none", "None")]

/-- `dict.get` on the map. -/
def lookupStr : List (String × String) → String → Option String
  | [], _ => none
  | (k, v) :: rest, key => if key = k then some v else lookupStr rest key

/-- `str(same_site).lower()`. -/
def lowerStr (s : String) : String := ⟨lowerL s.data⟩

/-- Normalization of a single cookie (loop body of src lines 723-741).
All four mapped same-site values are nonempty strings, so the truthiness
test `if mapped` at src line 735 coincides with the lookup succeeding. -/
def normalize_cookie (c : RawCookie) : NormCookie :=
  { name := c.name
    value := c.value
    domain := c.domain
    path := c.path.getD "/"
    httpOnly := c.httpOnly.getD false
    secure := c.secure.getD true
    sameSite :=
      match c.sameSite with
      | none => none
      | some s => lookupStr same_site_map (lowerStr s)
    expires :=
      if !(c.session.getD false) && c.expirationDate.isSome then c.expirationDate
      else none }

/-- `normalize_cookies` (src lines 715-742). -/
def normalize_cookies (raw : List RawCookie) : List NormCookie :=
  raw.map normalize_cookie

/-! ## The top-level record loop (`main`, src lines 1728-1789)

`run_single_listing` makes two page calls before its `try`/`while`
(`page.goto` at src line 1637 and `wait_and_find_berikutnya` at src line
1640), and after a successful record `main` navigates to the selling page
(src lines 1777-1779).  None of these are guarded by a handler, and
`main`'s record loop (src lines 1756-1775) has no `try` either, so an
exception there escapes `main` entirely: the remaining records are
skipped, no per-record diagnostic is printed for the interrupted record,
and the process dies with a traceback instead of returning `main`'s exit
code.  `RecordEnv` therefore records, besides the in-loop behavior,
whether each of these unguarded calls raises.
-/

/-- The environment of one listing record: whether a photo could be
resolved for it (`build_listing_config` returns `None` otherwise, src
lines 1596-1598), whether the unguarded pre-loop calls of
`run_single_listing` raise (src lines 1637-1640), the page's behavior
during its reconciliation loop, and whether the selling-page navigation
after a successful record raises (src lines 1778-1779). -/
structure RecordEnv where
  photoResolved : Bool
  gotoRaises : Bool
  iters : List IterEnv
  sellingRaises : Bool
  deriving DecidableEq

/-- `run_single_listing` returns `True` for the record: photo resolved,
no pre-loop exception, and the reconciliation loop reached success
(src lines 1764-1775).  A succeeded record can still abort the process
afterwards when the selling-page navigation raises. -/
def recordSucceeds (r : RecordEnv) : Bool :=
  r.photoResolved && !r.gotoRaises && (runLoop r.iters initState).success

/-- Processing this record raises an exception that escapes into `main`'s
untried record loop: either the pre-loop calls raise (src lines
1637-1640), or the record succeeded and the selling-page navigation
raises (src lines 1778-1779).  A record whose photo cannot be resolved
never reaches any page call (src lines 1764-1767). -/
def recordAborts (r : RecordEnv) : Bool :=
  r.photoResolved && (r.gotoRaises ||
    ((runLoop r.iters initState).success && r.sellingRaises))

/-- The diagnostics `main` and `run_single_listing` print per record:
the no-image error (src line 1765), the `[ERROR] incomplete update`
snapshot of the seven sub-check flags (src lines 1713-1723), and the
per-record failure line of `main` (src line 1773).  The record index is
attached to each event to express at which record it was emitted. -/
inductive LogEvent where
  | noImage (idx : Nat)
  | subcheckDiag (idx : Nat) (dom photo selects model mileage draft leave : Bool)
  | incompleteRecord (idx : Nat)
  deriving DecidableEq

/-- The sub-check diagnostic emitted for a record whose loop ended without
success (src lines 1713-1723). -/
def failDiag (idx : Nat) (r : RecordEnv) : LogEvent :=
  let fin := runLoop r.iters initState
  .subcheckDiag idx fin.dom_success fin.photo_success fin.selects_ok
    fin.model_commit_ok fin.mileage_commit_ok fin.draft_clicked fin.leave_clicked

/-- The diagnostics one record contributes when no exception escapes
around its reconciliation loop (src lines 1756-1775). -/
def recordLog (idx : Nat) (r : RecordEnv) : List LogEvent :=
  if !r.photoResolved then [.noImage idx]
  else if (runLoop r.iters initState).success then []
  else [failDiag idx r, .incompleteRecord idx]

/-- The record loop of `main` restricted to runs in which no record
aborts: the number of failed records and the concatenated diagnostics,
starting at record index `idx`.  `processRecords_no_abort` shows the full
model reduces to this function on abort-free runs. -/
def processFrom (idx : Nat) : List RecordEnv → Nat × List LogEvent
  | [] => (0, [])
  | r :: rest =>
    let t := processFrom (idx + 1) rest
    ((if recordSucceeds r then 0 else 1) + t.1, recordLog idx r ++ t.2)

/-- Result of `main`'s record loop (src lines 1754-1775): whether an
exception escaped it, the accumulated failure count, and the emitted
per-record diagnostics.  When `aborted` is set, the count and log stop at
the record that raised. -/
structure MainResult where
  aborted : Bool
  failedCount : Nat
  log : List LogEvent
  deriving DecidableEq

/-- The record loop of `main` (src lines 1756-1775), record by record.
A photo-unresolved record is counted failed and skipped without any page
call (src lines 1764-1767).  A pre-loop exception (src lines 1637-1640)
escapes `run_single_listing` and the untried loop: nothing more runs.  A
failing loop yields the diagnostic snapshot and the failure line (src
lines 1713-1723, 1773).  After a successful record the selling-page
navigation runs (src lines 1777-1779) and may likewise abort. -/
def processRecords : Nat → List RecordEnv → MainResult
  | _, [] => ⟨false, 0, []⟩
  | idx, r :: rest =>
    if !r.photoResolved then
      let t := processRecords (idx + 1) rest
      ⟨t.aborted, 1 + t.failedCount, LogEvent.noImage idx :: t.log⟩
    else if r.gotoRaises then ⟨true, 0, []⟩
    else if (runLoop r.iters initState).success then
      if r.sellingRaises then ⟨true, 0, []⟩
      else processRecords (idx + 1) rest
    else
      let t := processRecords (idx + 1) rest
      ⟨t.aborted, 1 + t.failedCount,
        failDiag idx r :: LogEvent.incompleteRecord idx :: t.log⟩

/-- How the process terminates. -/
inductive ProcOutcome where
  | exit (code : Nat)
  | abort
  deriving DecidableEq

/-- The process outcome (src lines 1781-1789 and 1792-1793): exit code 1
when any record failed, 0 otherwise — unless an exception escaped the
record loop, in which case `main` never returns and the interpreter dies
with a traceback.  Records are numbered from 1 (src line 1756). -/
def mainOutcome (rs : List RecordEnv) : ProcOutcome :=
  if (processRecords 1 rs).aborted then ProcOutcome.abort
  else if 0 < (processRecords 1 rs).failedCount then ProcOutcome.exit 1
  else ProcOutcome.exit 0

/-! ## Helper lemmas about the loop body -/

@[simp] theorem bumpAttempts_success (s : LoopFlags) :
    (bumpAttempts s).success = s.success := rfl

@[simp] theorem bumpAttempts_draft (s : LoopFlags) :
    (bumpAttempts s).draft_clicked = s.draft_clicked := rfl

@[simp] theorem bumpAttempts_count (s : LoopFlags) :
    (bumpAttempts s).dom_stable_count = s.dom_stable_count := rfl

theorem updatePhoto_fields (e : IterEnv) (s : LoopFlags) :
    (updatePhoto e s).success = s.success ∧
    (updatePhoto e s).draft_clicked = s.draft_clicked ∧
    (updatePhoto e s).dom_stable_count = s.dom_stable_count := by
  unfold updatePhoto
  split <;> exact ⟨rfl, rfl, rfl⟩

@[simp] theorem updatePhoto_success (e : IterEnv) (s : LoopFlags) :
    (updatePhoto e s).success = s.success := (updatePhoto_fields e s).1

@[simp] theorem updatePhoto_draft (e : IterEnv) (s : LoopFlags) :
    (updatePhoto e s).draft_clicked = s.draft_clicked := (updatePhoto_fields e s).2.1

@[simp] theorem updatePhoto_count (e : IterEnv) (s : LoopFlags) :
    (updatePhoto e s).dom_stable_count = s.dom_stable_count :=
  (updatePhoto_fields e s).2.2

@[simp] theorem updatePatch_success (e : IterEnv) (s : LoopFlags) :
    (updatePatch e s).success = s.success := rfl

@[simp] theorem updatePatch_draft (e : IterEnv) (s : LoopFlags) :
    (updatePatch e s).draft_clicked = s.draft_clicked := rfl

@[simp] theorem updatePatch_dom (e : IterEnv) (s : LoopFlags) :
    (updatePatch e s).dom_success = e.patchOk := rfl

@[simp] theorem updatePatch_count (e : IterEnv) (s : LoopFlags) :
    (updatePatch e s).dom_stable_count =
      (if e.patchOk then s.dom_stable_count + 1 else 0) := rfl

theorem enforcePhase_fields (e : IterEnv) (s : LoopFlags) :
    (enforcePhase e s).1.success = s.success ∧
    (enforcePhase e s).1.draft_clicked = s.draft_clicked ∧
    (enforcePhase e s).1.dom_success = s.dom_success ∧
    (enforcePhase e s).1.dom_stable_count = s.dom_stable_count := by
  unfold enforcePhase
  repeat' split
  all_goals exact ⟨rfl, rfl, rfl, rfl⟩

@[simp] theorem enforcePhase_success (e : IterEnv) (s : LoopFlags) :
    (enforcePhase e s).1.success = s.success := (enforcePhase_fields e s).1

@[simp] theorem enforcePhase_draft (e : IterEnv) (s : LoopFlags) :
    (enforcePhase e s).1.draft_clicked = s.draft_clicked :=
  (enforcePhase_fields e s).2.1

@[simp] theorem enforcePhase_dom (e : IterEnv) (s : LoopFlags) :
    (enforcePhase e s).1.dom_success = s.dom_success :=
  (enforcePhase_fields e s).2.2.1

@[simp] theorem enforcePhase_count (e : IterEnv) (s : LoopFlags) :
    (enforcePhase e s).1.dom_stable_count = s.dom_stable_count :=
  (enforcePhase_fields e s).2.2.2

theorem doDraft_fields (e : IterEnv) (s : LoopFlags) :
    (doDraft e s).dom_success = s.dom_success ∧
    (doDraft e s).photo_success = s.photo_success ∧
    (doDraft e s).selects_ok = s.selects_ok ∧
    (doDraft e s).model_commit_ok = s.model_commit_ok ∧
    (doDraft e s).mileage_commit_ok = s.mileage_commit_ok ∧
    (doDraft e s).dom_stable_count = s.dom_stable_count := by
  unfold doDraft
  split <;> exact ⟨rfl, rfl, rfl, rfl, rfl, rfl⟩

@[simp] theorem doDraft_draft (e : IterEnv) (s : LoopFlags) :
    (doDraft e s).draft_clicked =
      (if draftGuard s then e.draftOk else s.draft_clicked) := by
  unfold doDraft
  split <;> rfl

theorem doLeave_fields (e : IterEnv) (s : LoopFlags) :
    (doLeave e s).dom_success = s.dom_success ∧
    (doLeave e s).photo_success = s.photo_success ∧
    (doLeave e s).selects_ok = s.selects_ok ∧
    (doLeave e s).model_commit_ok = s.model_commit_ok ∧
    (doLeave e s).mileage_commit_ok = s.mileage_commit_ok ∧
    (doLeave e s).dom_stable_count = s.dom_stable_count ∧
    (doLeave e s).draft_clicked = s.draft_clicked := by
  unfold doLeave
  split <;> exact ⟨rfl, rfl, rfl, rfl, rfl, rfl, rfl⟩

@[simp] theorem setSuccess_success (s : LoopFlags) :
    (setSuccess s).success =
      (s.dom_success && s.photo_success && s.selects_ok && s.model_commit_ok &&
       s.mileage_commit_ok && s.draft_clicked && s.leave_clicked) := rfl

@[simp] theorem setSuccess_fields (s : LoopFlags) :
    (setSuccess s).dom_success = s.dom_success ∧
    (setSuccess s).photo_success = s.photo_success ∧
    (setSuccess s).selects_ok = s.selects_ok ∧
    (setSuccess s).model_commit_ok = s.model_commit_ok ∧
    (setSuccess s).mileage_commit_ok = s.mileage_commit_ok ∧
    (setSuccess s).dom_stable_count = s.dom_stable_count ∧
    (setSuccess s).draft_clicked = s.draft_clicked ∧
    (setSuccess s).leave_clicked = s.leave_clicked :=
  ⟨rfl, rfl, rfl, rfl, rfl, rfl, rfl, rfl⟩

theorem phasePre_success (e : IterEnv) (s : LoopFlags) :
    (phasePre e s).1.success = s.success := by
  unfold phasePre
  repeat' split
  all_goals simp

theorem phasePre_draft (e : IterEnv) (s : LoopFlags) :
    (phasePre e s).1.draft_clicked = s.draft_clicked := by
  unfold phasePre
  repeat' split
  all_goals simp

theorem phasePre_early_raise (e : IterEnv) (s : LoopFlags)
    (h : e.raise = some RaisePoint.beforePhoto ∨ e.raise = some RaisePoint.beforePatch ∨
      e.raise = some RaisePoint.atPatch) :
    (phasePre e s).2 = true := by
  rcases h with h | h | h <;> simp [phasePre, h]

theorem phasePre_patch (e : IterEnv) (s : LoopFlags)
    (h1 : e.raise ≠ some RaisePoint.beforePhoto)
    (h2 : e.raise ≠ some RaisePoint.beforePatch)
    (h3 : e.raise ≠ some RaisePoint.atPatch) :
    (phasePre e s).1.dom_success = e.patchOk ∧
    (phasePre e s).1.dom_stable_count =
      (if e.patchOk then s.dom_stable_count + 1 else 0) := by
  unfold phasePre
  rw [if_neg h1, if_neg (by simp [h2, h3] : ¬(e.raise = some RaisePoint.beforePatch ∨
    e.raise = some RaisePoint.atPatch))]
  repeat' split
  all_goals simp_all

theorem phasePre_completed (e : IterEnv) (s : LoopFlags)
    (h : (phasePre e s).2 = false) :
    (phasePre e s).1.dom_success = e.patchOk ∧
    (phasePre e s).1.dom_stable_count =
      (if e.patchOk then s.dom_stable_count + 1 else 0) := by
  apply phasePre_patch <;> intro hEq <;>
    rw [phasePre_early_raise e s (by simp [hEq])] at h <;> cases h

theorem phasePost_preserve (e : IterEnv) (s : LoopFlags) :
    (phasePost e s).dom_success = s.dom_success ∧
    (phasePost e s).photo_success = s.photo_success ∧
    (phasePost e s).selects_ok = s.selects_ok ∧
    (phasePost e s).model_commit_ok = s.model_commit_ok ∧
    (phasePost e s).mileage_commit_ok = s.mileage_commit_ok ∧
    (phasePost e s).dom_stable_count = s.dom_stable_count := by
  unfold phasePost
  have hl := doLeave_fields e (doDraft e s)
  have hd := doDraft_fields e s
  have hs := setSuccess_fields (doLeave e (doDraft e s))
  exact ⟨by rw [hs.1, hl.1, hd.1], by rw [hs.2.1, hl.2.1, hd.2.1],
    by rw [hs.2.2.1, hl.2.2.1, hd.2.2.1], by rw [hs.2.2.2.1, hl.2.2.2.1, hd.2.2.2.1],
    by rw [hs.2.2.2.2.1, hl.2.2.2.2.1, hd.2.2.2.2.1],
    by rw [hs.2.2.2.2.2.1, hl.2.2.2.2.2.1, hd.2.2.2.2.2]⟩

theorem phasePost_flags (e : IterEnv) (s : LoopFlags) :
    (phasePost e s).success =
      ((phasePost e s).dom_success && (phasePost e s).photo_success &&
       (phasePost e s).selects_ok && (phasePost e s).model_commit_ok &&
       (phasePost e s).mileage_commit_ok && (phasePost e s).draft_clicked &&
       (phasePost e s).leave_clicked) := by
  unfold phasePost
  have hs := setSuccess_fields (doLeave e (doDraft e s))
  rw [setSuccess_success, hs.1, hs.2.1, hs.2.2.1, hs.2.2.2.1, hs.2.2.2.2.1,
    hs.2.2.2.2.2.2.1, hs.2.2.2.2.2.2.2]

theorem phasePost_draft (e : IterEnv) (s : LoopFlags) :
    (phasePost e s).draft_clicked =
      (if draftGuard s then e.draftOk else s.draft_clicked) := by
  unfold phasePost
  rw [(setSuccess_fields (doLeave e (doDraft e s))).2.2.2.2.2.2.1,
    (doLeave_fields e (doDraft e s)).2.2.2.2.2.2, doDraft_draft]

theorem iterBody_raised_fst (e : IterEnv) (s : LoopFlags)
    (h : (iterBody e s).2 = true) :
    (iterBody e s).1 = (phasePre e s).1 := by
  by_cases hp : (phasePre e s).2 = true <;> simp [iterBody, hp] at h ⊢

theorem iterBody_not_raised_fst (e : IterEnv) (s : LoopFlags)
    (h : (iterBody e s).2 = false) :
    (iterBody e s).1 = phasePost e (phasePre e s).1 ∧ (phasePre e s).2 = false := by
  by_cases hp : (phasePre e s).2 = true <;> simp [iterBody, hp] at h ⊢

theorem runLoop_cons_raised (e : IterEnv) (es : List IterEnv) (s : LoopFlags)
    (h : (iterBody e s).2 = true) :
    runLoop (e :: es) s = runLoop es (iterBody e s).1 := by
  simp [runLoop, h]

theorem runLoop_cons_done (e : IterEnv) (es : List IterEnv) (s : LoopFlags)
    (h1 : (iterBody e s).2 = false) (h2 : (iterBody e s).1.success = true) :
    runLoop (e :: es) s = (iterBody e s).1 := by
  simp [runLoop, h1, h2]

theorem runLoop_cons_continue (e : IterEnv) (es : List IterEnv) (s : LoopFlags)
    (h1 : (iterBody e s).2 = false) (h2 : (iterBody e s).1.success = false) :
    runLoop (e :: es) s = runLoop es (iterBody e s).1 := by
  simp [runLoop, h1, h2]

theorem iterBody_counter (e : IterEnv) (s : LoopFlags)
    (h1 : e.raise ≠ some RaisePoint.beforePhoto)
    (h2 : e.raise ≠ some RaisePoint.beforePatch)
    (h3 : e.raise ≠ some RaisePoint.atPatch) :
    (iterBody e s).1.dom_stable_count =
      (if e.patchOk then s.dom_stable_count + 1 else 0) := by
  by_cases hp : (phasePre e s).2 = true
  · simp only [iterBody, hp, if_true]
    exact (phasePre_patch e s h1 h2 h3).2
  · simp only [iterBody, hp, if_false, Bool.false_eq_true]
    rw [(phasePost_preserve e (phasePre e s).1).2.2.2.2.2]
    exact (phasePre_patch e s h1 h2 h3).2

theorem runLoop_success_inv (envs : List IterEnv) :
    ∀ s : LoopFlags, s.success = false → (runLoop envs s).success = true →
    (runLoop envs s).dom_success = true ∧
    (runLoop envs s).photo_success = true ∧
    (runLoop envs s).selects_ok = true ∧
    (runLoop envs s).model_commit_ok = true ∧
    (runLoop envs s).mileage_commit_ok = true ∧
    (runLoop envs s).draft_clicked = true ∧
    (runLoop envs s).leave_clicked = true ∧
    1 ≤ (runLoop envs s).dom_stable_count := by
  induction envs with
  | nil =>
    intro s hs ht
    rw [show runLoop [] s = s from rfl] at ht
    rw [ht] at hs
    cases hs
  | cons e es ih =>
    intro s hs ht
    by_cases hr : (iterBody e s).2 = true
    · rw [runLoop_cons_raised e es s hr] at ht ⊢
      refine ih _ ?_ ht
      rw [iterBody_raised_fst e s hr, phasePre_success]
      exact hs
    · have hr' : (iterBody e s).2 = false := by simpa using hr
      by_cases hsucc : (iterBody e s).1.success = true
      · rw [runLoop_cons_done e es s hr' hsucc] at ht ⊢
        obtain ⟨heq, hpre⟩ := iterBody_not_raised_fst e s hr'
        rw [heq] at ht ⊢
        rw [phasePost_flags] at ht
        simp only [Bool.and_eq_true] at ht
        obtain ⟨⟨⟨⟨⟨⟨hdom, hphoto⟩, hsel⟩, hmod⟩, hmil⟩, hdr⟩, hlv⟩ := ht
        refine ⟨hdom, hphoto, hsel, hmod, hmil, hdr, hlv, ?_⟩
        have hc := (phasePost_preserve e (phasePre e s).1).2.2.2.2.2
        have hd := (phasePost_preserve e (phasePre e s).1).1
        obtain ⟨hpd, hpc⟩ := phasePre_completed e s hpre
        rw [hc, hpc]
        rw [hd, hpd] at hdom
        simp [hdom]
      · have hsucc' : (iterBody e s).1.success = false := by simpa using hsucc
        rw [runLoop_cons_continue e es s hr' hsucc'] at ht ⊢
        exact ih _ hsucc' ht

theorem draft_origin_aux (envs : List IterEnv) :
    ∀ s : LoopFlags, s.draft_clicked = false → s.success = false →
    (runLoop envs s).draft_clicked = true →
    ∃ pre e post, envs = pre ++ e :: post ∧
      (phasePre e (runLoop pre s)).2 = false ∧
      draftGuard (phasePre e (runLoop pre s)).1 = true := by
  induction envs with
  | nil =>
    intro s hd hs ht
    rw [show runLoop [] s = s from rfl] at ht
    rw [ht] at hd
    cases hd
  | cons e0 es ih =>
    intro s hd hs ht
    by_cases hr : (iterBody e0 s).2 = true
    · rw [runLoop_cons_raised e0 es s hr] at ht
      have hd1 : (iterBody e0 s).1.draft_clicked = false := by
        rw [iterBody_raised_fst e0 s hr, phasePre_draft]; exact hd
      have hs1 : (iterBody e0 s).1.success = false := by
        rw [iterBody_raised_fst e0 s hr, phasePre_success]; exact hs
      obtain ⟨pre, e, post, hsplit, h2, h3⟩ := ih _ hd1 hs1 ht
      refine ⟨e0 :: pre, e, post, by rw [hsplit, List.cons_append], ?_, ?_⟩ <;>
        rw [runLoop_cons_raised e0 pre s hr]
      · exact h2
      · exact h3
    · have hr' : (iterBody e0 s).2 = false := by simpa using hr
      obtain ⟨heq, hpre⟩ := iterBody_not_raised_fst e0 s hr'
      by_cases hdr : (iterBody e0 s).1.draft_clicked = true
      · refine ⟨[], e0, es, rfl, hpre, ?_⟩
        by_cases hg : draftGuard (phasePre e0 (runLoop [] s)).1 = true
        · exact hg
        · have hg' : draftGuard (phasePre e0 s).1 = false := by simpa using hg
          rw [heq, phasePost_draft, hg'] at hdr
          simp only [if_false, Bool.false_eq_true, phasePre_draft] at hdr
          rw [hd] at hdr
          cases hdr
      · have hdr' : (iterBody e0 s).1.draft_clicked = false := by simpa using hdr
        by_cases hsucc : (iterBody e0 s).1.success = true
        · rw [runLoop_cons_done e0 es s hr' hsucc] at ht
          rw [ht] at hdr'
          cases hdr'
        · have hsucc' : (iterBody e0 s).1.success = false := by simpa using hsucc
          rw [runLoop_cons_continue e0 es s hr' hsucc'] at ht
          obtain ⟨pre, e, post, hsplit, h2, h3⟩ := ih _ hdr' hsucc' ht
          refine ⟨e0 :: pre, e, post, by rw [hsplit, List.cons_append], ?_, ?_⟩ <;>
            rw [runLoop_cons_continue e0 pre s hr' hsucc']
          · exact h2
          · exact h3

theorem draftGuard_spelled_out (s : LoopFlags) (h : draftGuard s = true) :
    2 ≤ s.dom_stable_count ∧ s.photo_success = true ∧ s.selects_ok = true ∧
    s.model_commit_ok = true ∧ s.mileage_commit_ok = true ∧
    s.draft_clicked = false := by
  simp only [draftGuard, Bool.and_eq_true, decide_eq_true_eq,
    Bool.not_eq_true'] at h
  exact ⟨h.1.1.1.1.1, h.1.1.1.1.2, h.1.1.1.2, h.1.1.2, h.1.2, h.2⟩

/-- C2: within one record's reconciliation loop, an iteration whose full
DOM pass completes with success increments the stability counter by
exactly 1, and an iteration whose DOM pass completes with failure resets
it to exactly 0; hence across consecutive successful passes the counter is
monotonically non-decreasing.  The hypotheses say that the iteration
actually reached and completed the `patch_dom` call (src lines 1672-1676);
an iteration that raises before or inside `patch_dom` has no completed DOM
pass. -/
theorem stability_counter_update (e : IterEnv) (s : LoopFlags)
    (h1 : e.raise ≠ some RaisePoint.beforePhoto)
    (h2 : e.raise ≠ some RaisePoint.beforePatch)
    (h3 : e.raise ≠ some RaisePoint.atPatch) :
    (e.patchOk = true →
      (iterBody e s).1.dom_stable_count = s.dom_stable_count + 1) ∧
    (e.patchOk = false → (iterBody e s).1.dom_stable_count = 0) ∧
    (e.patchOk = true →
      s.dom_stable_count ≤ (iterBody e s).1.dom_stable_count) := by
  have hc := iterBody_counter e s h1 h2 h3
  refine ⟨fun hp => ?_, fun hp => ?_, fun hp => ?_⟩
  · simp [hc, hp]
  · simp [hc, hp]
  · simp [hc, hp]

theorem stability_counter_update_witness :
    (iterBody ⟨true, true, true, true, true, true, true, none⟩ initState).1.dom_stable_count =
      initState.dom_stable_count + 1 :=
  (stability_counter_update ⟨true, true, true, true, true, true, true, none⟩ initState
    (by decide) (by decide) (by decide)).1 rfl

/-- C3: an exception raised during one pass of the per-record loop
(Playwright timeout or any other exception — the two `except` arms at src
lines 1708-1711 behave identically) is caught inside the loop and treated
as a failed pass, not a fatal condition: the pass does not reach success
and the loop simply proceeds with the remaining iterations of the
per-record window. -/
theorem pass_errors_absorbed (e : IterEnv) (es : List IterEnv) (s : LoopFlags)
    (hs : s.success = false) (hr : (iterBody e s).2 = true) :
    (iterBody e s).1.success = false ∧
    runLoop (e :: es) s = runLoop es (iterBody e s).1 := by
  constructor
  · rw [iterBody_raised_fst e s hr, phasePre_success]
    exact hs
  · exact runLoop_cons_raised e es s hr

theorem pass_errors_absorbed_witness :
    (iterBody ⟨true, true, true, true, true, true, true,
        some RaisePoint.atPatch⟩ initState).1.success = false ∧
    runLoop [⟨true, true, true, true, true, true, true,
        some RaisePoint.atPatch⟩] initState =
      runLoop [] (iterBody ⟨true, true, true, true, true, true, true,
        some RaisePoint.atPatch⟩ initState).1 :=
  pass_errors_absorbed _ [] initState rfl (by decide)

/-- C1 counterexample: a concrete four-iteration run in which the save
draft was clicked during an iteration at stability 2 (leave-page click
failing there), a later failing DOM pass reset the stability counter, and
the run then reaches overall success in an iteration whose stability
counter is only 1 — refuting that SUCCEEDED is reached only in an
iteration whose stability counter is at least 2. -/
theorem below_threshold_success_cx :
    (runLoop
        [⟨true, true, true, true, true, true, false, none⟩,
         ⟨true, true, true, true, true, true, false, none⟩,
         ⟨true, false, true, true, true, true, false, none⟩,
         ⟨true, true, true, true, true, true, true, none⟩] initState).success = true ∧
    (runLoop
        [⟨true, true, true, true, true, true, false, none⟩,
         ⟨true, true, true, true, true, true, false, none⟩,
         ⟨true, false, true, true, true, true, false, none⟩,
         ⟨true, true, true, true, true, true, true, none⟩] initState).dom_stable_count = 1 := by
  decide

/-- C1 (amended): the per-record run reaches overall success only in an
iteration whose own DOM pass succeeded (so the stability counter is at
least 1) with the photo attached, all select fields confirmed, the model
and mileage commits verified, the save-draft click done and the leave-page
step resolved; and the save-draft click is first performed only in an
iteration where, at the moment of the click, the stability counter is at
least 2 and photo, selects, model and mileage are all confirmed.  (The
counter need not still be at least 2 in the success iteration itself.) -/
theorem run_success_and_draft_gate (envs : List IterEnv) :
    ((runLoop envs initState).success = true →
      (runLoop envs initState).dom_success = true ∧
      (runLoop envs initState).photo_success = true ∧
      (runLoop envs initState).selects_ok = true ∧
      (runLoop envs initState).model_commit_ok = true ∧
      (runLoop envs initState).mileage_commit_ok = true ∧
      (runLoop envs initState).draft_clicked = true ∧
      (runLoop envs initState).leave_clicked = true ∧
      1 ≤ (runLoop envs initState).dom_stable_count) ∧
    ((runLoop envs initState).draft_clicked = true →
      ∃ pre e post, envs = pre ++ e :: post ∧
        (phasePre e (runLoop pre initState)).2 = false ∧
        2 ≤ (phasePre e (runLoop pre initState)).1.dom_stable_count ∧
        (phasePre e (runLoop pre initState)).1.photo_success = true ∧
        (phasePre e (runLoop pre initState)).1.selects_ok = true ∧
        (phasePre e (runLoop pre initState)).1.model_commit_ok = true ∧
        (phasePre e (runLoop pre initState)).1.mileage_commit_ok = true ∧
        (phasePre e (runLoop pre initState)).1.draft_clicked = false) := by
  constructor
  · intro h
    exact runLoop_success_inv envs initState rfl h
  · intro h
    obtain ⟨pre, e, post, hsplit, h2, h3⟩ := draft_origin_aux envs initState rfl rfl h
    obtain ⟨g1, g2, g3, g4, g5, g6⟩ := draftGuard_spelled_out _ h3
    exact ⟨pre, e, post, hsplit, h2, g1, g2, g3, g4, g5, g6⟩

theorem run_success_and_draft_gate_witness :
    1 ≤ (runLoop [⟨true, true, true, true, true, true, true, none⟩,
        ⟨true, true, true, true, true, true, true, none⟩] initState).dom_stable_count :=
  ((run_success_and_draft_gate [⟨true, true, true, true, true, true, true, none⟩,
      ⟨true, true, true, true, true, true, true, none⟩]).1 (by decide)).2.2.2.2.2.2.2

/-- C4 counterexample: with target model value consisting only of digits,
the fallback path of `enforce_model_input_commit` (src lines 549-569)
verifies the commit although both read-back values are purely numeric: the
numeric guard is not re-applied after the retype, so the claim's "for any
read-back value consisting only of digits the commit is rejected" fails. -/
theorem numeric_model_fallback_cx :
    enforce_model_input_commit [⟨true, false, "301", "301", "301", "301"⟩] "301" = true ∧
    pyIsDigit "301" = true := by
  decide

/-- C4 (amended): the primary verification (src lines 542-547) accepts only
when both the input read-back and the visible display value
normalize-equal the target and neither is purely numeric, and `patch_dom`'s
`modelTextMatches` (src lines 836-840) always rejects purely numeric
values; but when a read-back is purely numeric the function retypes the
value and then accepts solely on normalized equality of both re-read
values (src lines 550-569), without re-applying the numeric guard, so a
purely numeric target can be verified with purely numeric read-backs. -/
theorem model_commit_verification (mv current visible current2 visible2 : String) :
    (pyIsDigit (pyStrip current) = false → pyIsDigit (pyStrip visible) = false →
      (model_commit_attempt mv current visible current2 visible2 = true ↔
        (pyNorm (pyStrip current) = pyNorm mv ∧ pyNorm (pyStrip visible) = pyNorm mv))) ∧
    ((pyIsDigit (pyStrip current) = true ∨ pyIsDigit (pyStrip visible) = true) →
      (model_commit_attempt mv current visible current2 visible2 = true ↔
        (pyNorm (pyStrip current2) = pyNorm mv ∧ pyNorm (pyStrip visible2) = pyNorm mv))) ∧
    (∀ v : String, (jsClean v.data).all Char.isDigit = true →
      modelTextMatches v mv = false) ∧
    (∀ c : ModelContainerEnv, c.hasInput = true → c.raises = false →
      enforce_model_input_commit [c] mv =
        model_commit_attempt mv c.current c.visible c.current2 c.visible2) := by
  refine ⟨?_, ?_, ?_, ?_⟩
  · intro hc hv
    simp [model_commit_attempt, hc, hv, Bool.and_eq_true, beq_iff_eq]
  · intro h
    rcases h with h | h <;>
      simp [model_commit_attempt, h, Bool.and_eq_true, beq_iff_eq]
  · intro v hdig
    simp [modelTextMatches, hdig]
  · intro c h1 h2
    by_cases hA : model_commit_attempt mv c.current c.visible c.current2 c.visible2 = true <;>
      simp [enforce_model_input_commit, enforceModelGo, h1, h2, hA]

theorem model_commit_verification_witness :
    model_commit_attempt "Avanza" "Avanza" "Avanza" "" "" = true :=
  ((model_commit_verification "Avanza" "Avanza" "Avanza" "" "").1
    (by decide) (by decide)).mpr (by decide)

/-- C5: for a `(label, option)` select field, an absent combobox is
reported satisfied; a present combobox is reported committed exactly when
its click succeeded, an option element was actually clicked, and the
re-read display value equals or case-insensitively contains the option
text — in particular text typed into the backing input without a
successful option click is never reported committed; and
`enforce_select_fields` confirms exactly when every field confirms. -/
theorem select_commit_requires_click (e : SelectEnv) (opt : String) :
    (e.comboExists = false → select_combobox_option e opt = true) ∧
    (e.comboExists = true →
      (select_combobox_option e opt = true ↔
        (e.comboClickOk = true ∧ e.optionClicked = true ∧
          (e.finalValue = opt ∨
            isSubL (lowerL opt.data) (lowerL e.finalValue.data) = true)))) ∧
    (e.comboExists = true → e.optionClicked = false →
      select_combobox_option e opt = false) ∧
    (∀ fields : List (SelectEnv × String),
      (enforce_select_fields fields = true ↔
        ∀ p ∈ fields, select_combobox_option p.1 p.2 = true)) := by
  refine ⟨?_, ?_, ?_, ?_⟩
  · intro h
    simp [select_combobox_option, h]
  · intro h
    by_cases h1 : e.comboClickOk = true <;> by_cases h2 : e.optionClicked = true <;>
      simp [select_combobox_option, h, h1, h2, Bool.or_eq_true, beq_iff_eq]
  · intro h h2
    simp [select_combobox_option, h, h2]
  · intro fields
    simp [enforce_select_fields, List.all_eq_true]

theorem select_commit_requires_click_witness :
    select_combobox_option ⟨false, false, false, false, ""⟩ "Toyota" = true :=
  (select_commit_requires_click ⟨false, false, false, false, ""⟩ "Toyota").1 rfl

theorem leaveLoop_error_raises (ps : List PollEnv) (h : leaveLoop ps = some false) :
    ps.any (fun p => p.raises) = true := by
  induction ps with
  | nil => simp [leaveLoop] at h
  | cons p rest ih =>
    by_cases h1 : p.selClick = true
    · simp [leaveLoop, h1] at h
    · by_cases h2 : p.raises = true
      · simp [List.any_cons, h2]
      · by_cases h3 : p.jsClick = true
        · simp [leaveLoop, h1, h2, h3] at h
        · have hr := ih (by
            simpa [leaveLoop, h1, h2, h3] using h)
          simp [List.any_cons, hr]

/-- C6 counterexample: a poll window whose only iteration raises inside
the unguarded JS fallback evaluation (src line 305): the outer handler
(src lines 337-339) returns failure even though no confirmation element is
visible after the window — refuting that failure occurs only when a
confirmation element is still visibly present. -/
theorem leave_page_exception_cx :
    click_tinggalkan_halaman ⟨[⟨false, true, false⟩], false⟩ = false ∧
    (⟨[⟨false, true, false⟩], false⟩ : LeaveEnv).presentAfter = false := by
  decide

/-- C6 (amended): if the poll window closes without a successful click and
without an exception, and no confirmation element is visible after the
window, the step returns success (absence is treated as satisfied); the
step returns failure only when either a confirmation element is still
visibly present but was never successfully clicked, or an exception
escaped the poll loop and was caught by the outer handler. -/
theorem leave_page_absence (e : LeaveEnv) :
    (leaveLoop e.polls = none → e.presentAfter = false →
      click_tinggalkan_halaman e = true) ∧
    (click_tinggalkan_halaman e = false →
      (leaveLoop e.polls = some false ∧ e.polls.any (fun p => p.raises) = true) ∨
      (leaveLoop e.polls = none ∧ e.presentAfter = true)) := by
  constructor
  · intro h1 h2
    simp [click_tinggalkan_halaman, h1, h2]
  · intro h
    rcases hl : leaveLoop e.polls with _ | b
    · right
      refine ⟨rfl, ?_⟩
      simp [click_tinggalkan_halaman, hl] at h
      simpa using h
    · cases b
      · exact Or.inl ⟨by simp [hl], leaveLoop_error_raises e.polls hl⟩
      · simp [click_tinggalkan_halaman, hl] at h

theorem leave_page_absence_witness :
    click_tinggalkan_halaman ⟨[⟨false, false, false⟩], false⟩ = true :=
  (leave_page_absence ⟨[⟨false, false, false⟩], false⟩).1 (by decide) rfl

theorem processFrom_cons (idx : Nat) (r : RecordEnv) (rest : List RecordEnv) :
    processFrom idx (r :: rest) =
      ((if recordSucceeds r then 0 else 1) + (processFrom (idx + 1) rest).1,
        recordLog idx r ++ (processFrom (idx + 1) rest).2) := rfl

theorem processFrom_count (idx : Nat) (rs : List RecordEnv) :
    (processFrom idx rs).1 = (rs.filter (fun r => !recordSucceeds r)).length := by
  induction rs generalizing idx with
  | nil => rfl
  | cons r rest ih =>
    by_cases h : recordSucceeds r = true <;>
      simp [processFrom_cons, List.filter_cons, h, ih (idx + 1)] <;> omega

theorem mem_processFrom (rs : List RecordEnv) :
    ∀ (idx i : Nat) (h : i < rs.length) (x : LogEvent),
      x ∈ recordLog (idx + i) (rs.get ⟨i, h⟩) → x ∈ (processFrom idx rs).2 := by
  induction rs with
  | nil =>
    intro idx i h
    exact absurd h (Nat.not_lt_zero i)
  | cons r rest ih =>
    intro idx i h x hx
    cases i with
    | zero =>
      rw [processFrom_cons]
      exact List.mem_append_left _ (by simpa using hx)
    | succ j =>
      have hj : j < rest.length := Nat.lt_of_succ_lt_succ h
      have hx2 : x ∈ recordLog ((idx + 1) + j) (rest.get ⟨j, hj⟩) := by
        have harith : idx + (j + 1) = (idx + 1) + j := by omega
        rw [harith] at hx
        simpa using hx
      rw [processFrom_cons]
      exact List.mem_append_right _ (ih (idx + 1) j hj x hx2)

theorem processRecords_no_abort (rs : List RecordEnv) :
    ∀ idx : Nat, (∀ r ∈ rs, recordAborts r = false) →
    processRecords idx rs =
      ⟨false, (processFrom idx rs).1, (processFrom idx rs).2⟩ := by
  induction rs with
  | nil =>
    intro idx h
    rfl
  | cons r rest ih =>
    intro idx h
    have hr : recordAborts r = false := h r (List.mem_cons_self r rest)
    have ih2 := ih (idx + 1) (fun p hp => h p (List.mem_cons_of_mem r hp))
    by_cases hp : r.photoResolved = true
    · have hg : r.gotoRaises = false := by
        by_contra hgc
        have hg2 : r.gotoRaises = true := by simpa using hgc
        simp [recordAborts, hp, hg2] at hr
      by_cases hs : (runLoop r.iters initState).success = true
      · have hsell : r.sellingRaises = false := by
          by_contra hsc
          have hs2 : r.sellingRaises = true := by simpa using hsc
          simp [recordAborts, hp, hg, hs, hs2] at hr
        simp [processRecords, processFrom_cons, recordLog, recordSucceeds,
          hp, hg, hs, hsell, ih2]
      · have hs2 : (runLoop r.iters initState).success = false := by simpa using hs
        simp [processRecords, processFrom_cons, recordLog, recordSucceeds,
          hp, hg, hs2, ih2]
    · have hp2 : r.photoResolved = false := by simpa using hp
      simp [processRecords, processFrom_cons, recordLog, recordSucceeds, hp2, ih2]

theorem processRecords_aborted (rs : List RecordEnv) :
    ∀ idx : Nat, (processRecords idx rs).aborted = rs.any recordAborts := by
  induction rs with
  | nil =>
    intro idx
    rfl
  | cons r rest ih =>
    intro idx
    by_cases hp : r.photoResolved = true
    · by_cases hg : r.gotoRaises = true
      · simp [processRecords, recordAborts, hp, hg]
      · have hg2 : r.gotoRaises = false := by simpa using hg
        by_cases hs : (runLoop r.iters initState).success = true
        · by_cases hsell : r.sellingRaises = true
          · simp [processRecords, recordAborts, hp, hg2, hs, hsell]
          · have hsell2 : r.sellingRaises = false := by simpa using hsell
            simp [processRecords, recordAborts, hp, hg2, hs, hsell2, ih (idx + 1)]
        · have hs2 : (runLoop r.iters initState).success = false := by simpa using hs
          simp [processRecords, recordAborts, hp, hg2, hs2, ih (idx + 1)]
    · have hp2 : r.photoResolved = false := by simpa using hp
      simp [processRecords, recordAborts, hp2, ih (idx + 1)]

theorem processRecords_abort_prefix (r : RecordEnv) (post : List RecordEnv)
    (hab : recordAborts r = true) :
    ∀ (pre : List RecordEnv) (idx : Nat), (∀ p ∈ pre, recordAborts p = false) →
    (processRecords idx (pre ++ r :: post)).log = (processRecords idx pre).log ∧
    (processRecords idx (pre ++ r :: post)).aborted = true := by
  intro pre
  induction pre with
  | nil =>
    intro idx hpre
    have hp : r.photoResolved = true := by
      by_contra hc
      have hp2 : r.photoResolved = false := by simpa using hc
      simp [recordAborts, hp2] at hab
    by_cases hg : r.gotoRaises = true
    · simp [processRecords, hp, hg]
    · have hg2 : r.gotoRaises = false := by simpa using hg
      have hs : (runLoop r.iters initState).success = true := by
        by_contra hc
        have hs2 : (runLoop r.iters initState).success = false := by simpa using hc
        simp [recordAborts, hp, hg2, hs2] at hab
      have hsell : r.sellingRaises = true := by
        by_contra hc
        have hsell2 : r.sellingRaises = false := by simpa using hc
        simp [recordAborts, hp, hg2, hs, hsell2] at hab
      simp [processRecords, hp, hg2, hs, hsell]
  | cons p pre2 ih =>
    intro idx hpre
    have hpa : recordAborts p = false := hpre p (List.mem_cons_self p pre2)
    have ih2 := ih (idx + 1) (fun q hq => hpre q (List.mem_cons_of_mem p hq))
    by_cases hp : p.photoResolved = true
    · by_cases hg : p.gotoRaises = true
      · exfalso
        simp [recordAborts, hp, hg] at hpa
      · have hg2 : p.gotoRaises = false := by simpa using hg
        by_cases hs : (runLoop p.iters initState).success = true
        · by_cases hsell : p.sellingRaises = true
          · exfalso
            simp [recordAborts, hp, hg2, hs, hsell] at hpa
          · have hsell2 : p.sellingRaises = false := by simpa using hsell
            simp [processRecords, hp, hg2, hs, hsell2, ih2.1, ih2.2]
        · have hs2 : (runLoop p.iters initState).success = false := by simpa using hs
          simp [processRecords, hp, hg2, hs2, ih2.1, ih2.2]
    · have hp2 : p.photoResolved = false := by simpa using hp
      simp [processRecords, hp2, ih2.1, ih2.2]

/-- C7 counterexample: two concrete runs refute the claim.  In the first,
the only record completes successfully (its reconciliation loop reaches
success) but the unguarded selling-page navigation (src line 1778) raises,
so the process aborts instead of exiting with code 0.  In the second, the
first record's unguarded pre-loop navigation (src line 1637) raises: the
process aborts, and the second record — which would fail with an
unresolvable photo — is never examined and no diagnostic at all is
emitted. -/
theorem main_abort_cx :
    mainOutcome [⟨true, false,
        [⟨true, true, true, true, true, true, true, none⟩,
         ⟨true, true, true, true, true, true, true, none⟩], true⟩] =
      ProcOutcome.abort ∧
    ([(⟨true, false,
        [⟨true, true, true, true, true, true, true, none⟩,
         ⟨true, true, true, true, true, true, true, none⟩], true⟩ :
        RecordEnv)].all recordSucceeds = true) ∧
    (processRecords 1
        [⟨true, true, [], false⟩, ⟨false, false, [], false⟩]).log = [] ∧
    (processRecords 1
        [⟨true, true, [], false⟩, ⟨false, false, [], false⟩]).aborted = true := by
  decide

/-- C7 (amended): on runs where no exception escapes the unguarded page
calls outside the reconciliation loop (the pre-loop navigation and probe
at src lines 1637-1640 and the selling-page navigation at src line 1778),
the process exits with code 0 exactly when every listing record completes
successfully and with code 1 otherwise; every record is examined (the
failure count equals the number of failing records), a photo-unresolved
record is counted failed without entering the loop and gets the no-image
diagnostic, and every record whose loop ends without success gets the
seven-flag diagnostic snapshot.  When such an exception does escape, it
propagates through `main`'s untried record loop: the process aborts
(exactly when some record aborts), the diagnostics stop at the records
before the aborting one, and the remaining records are skipped. -/
theorem exit_code_and_diagnostics (rs : List RecordEnv) :
    ((∀ r ∈ rs, recordAborts r = false) →
      (mainOutcome rs = ProcOutcome.exit 0 ↔ rs.all recordSucceeds = true) ∧
      (mainOutcome rs = ProcOutcome.exit 1 ↔ ¬rs.all recordSucceeds = true) ∧
      (processRecords 1 rs).failedCount =
        (rs.filter (fun r => !recordSucceeds r)).length ∧
      (∀ (i : Nat) (h : i < rs.length),
        recordSucceeds (rs.get ⟨i, h⟩) = false →
        ((rs.get ⟨i, h⟩).photoResolved = false →
          LogEvent.noImage (1 + i) ∈ (processRecords 1 rs).log) ∧
        ((rs.get ⟨i, h⟩).photoResolved = true →
          failDiag (1 + i) (rs.get ⟨i, h⟩) ∈ (processRecords 1 rs).log ∧
          LogEvent.incompleteRecord (1 + i) ∈ (processRecords 1 rs).log))) ∧
    (∀ r : RecordEnv, r.photoResolved = false → recordSucceeds r = false) ∧
    (mainOutcome rs = ProcOutcome.abort ↔ ∃ r ∈ rs, recordAborts r = true) ∧
    (∀ (pre : List RecordEnv) (r : RecordEnv) (post : List RecordEnv),
      rs = pre ++ r :: post → (∀ p ∈ pre, recordAborts p = false) →
      recordAborts r = true →
      (processRecords 1 rs).log = (processRecords 1 pre).log ∧
      (processRecords 1 rs).aborted = true) := by
  refine ⟨?_, ?_, ?_, ?_⟩
  · intro hna
    have heq := processRecords_no_abort rs 1 hna
    have hzero : (processFrom 1 rs).1 = 0 ↔ rs.all recordSucceeds = true := by
      rw [processFrom_count]
      simp [List.length_eq_zero, List.filter_eq_nil, List.all_eq_true]
    refine ⟨?_, ?_, ?_, ?_⟩
    · rw [← hzero]
      unfold mainOutcome
      rw [heq]
      by_cases hc : 0 < (processFrom 1 rs).1 <;> simp [hc] <;> omega
    · rw [← hzero]
      unfold mainOutcome
      rw [heq]
      by_cases hc : 0 < (processFrom 1 rs).1 <;> simp [hc] <;> omega
    · rw [heq]
      exact processFrom_count 1 rs
    · intro i h hfail
      simp only [List.get_eq_getElem] at hfail
      have hmem : rs.get ⟨i, h⟩ ∈ rs := List.get_mem rs i h
      constructor
      · intro hph
        simp only [List.get_eq_getElem] at hph
        rw [heq]
        apply mem_processFrom rs 1 i h
        simp [recordLog, hph]
      · intro hph
        simp only [List.get_eq_getElem] at hph
        have hab := hna _ hmem
        simp only [List.get_eq_getElem] at hab
        have hg : rs[i].gotoRaises = false := by
          by_contra hc
          have hg2 : rs[i].gotoRaises = true := by simpa using hc
          simp [recordAborts, hph, hg2] at hab
        have hsf : (runLoop (rs[i]).iters initState).success = false := by
          have h2 := hfail
          simp [recordSucceeds, hph, hg] at h2
          exact h2
        rw [heq]
        constructor <;> apply mem_processFrom rs 1 i h <;>
          simp [recordLog, hph, hsf]
  · intro r hph
    simp [recordSucceeds, hph]
  · have hiff : (∃ r ∈ rs, recordAborts r = true) ↔
        (processRecords 1 rs).aborted = true := by
      rw [processRecords_aborted rs 1, List.any_eq_true]
    unfold mainOutcome
    by_cases ha : (processRecords 1 rs).aborted = true
    · simp [ha, hiff]
    · have ha2 : (processRecords 1 rs).aborted = false := by simpa using ha
      have hne : ¬∃ r ∈ rs, recordAborts r = true := fun hex => ha (hiff.mp hex)
      by_cases hc : 0 < (processRecords 1 rs).failedCount <;>
        simp [ha2, hc, hne]
  · intro pre r post hsplit hpre habr
    rw [hsplit]
    exact processRecords_abort_prefix r post habr pre 1 hpre

theorem exit_code_and_diagnostics_witness :
    LogEvent.noImage 1 ∈
      (processRecords 1 [(⟨false, false, [], false⟩ : RecordEnv)]).log :=
  (((exit_code_and_diagnostics [⟨false, false, [], false⟩]).1 (by decide)).2.2.2
    0 (by decide) rfl).1 rfl

/-- C8: when the record data file is absent, contains invalid JSON, or
yields no dict-shaped listing entries, `main` processes exactly one
default record — the empty listing dict — and `build_listing_config` fills
every field of that record from the built-in configuration defaults. -/
theorem default_record_fallback (df : DataFileState)
    (h : df = DataFileState.absent ∨ df = DataFileState.invalidJson ∨
      load_listings_data df = []) :
    effectiveListings df = [PyJson.jobj []] ∧
    build_listing_config initGlobals (PyJson.jobj []) =
      { target_url := TARGET_URL
        selling_url := SELLING_URL
        vehicle_type := "Mobil/Truk"
        year := "2025"
        make := "Toyota"
        model := "Avanza"
        price := "200000"
        mileage := "120000"
        description := "nego tipis km rendah"
        location := "Bekasi" } := by
  constructor
  · rcases h with h | h | h
    · rw [h]
      rfl
    · rw [h]
      rfl
    · simp [effectiveListings, h]
  · rfl

theorem default_record_fallback_witness :
    effectiveListings DataFileState.absent = [PyJson.jobj []] :=
  (default_record_fallback DataFileState.absent (Or.inl rfl)).1

/-- C9: `normalize_cookies` maps every raw cookie into the host schema:
`path` defaults to "/", `httpOnly` to false, `secure` to true; a `sameSite`
key is present exactly when the source value, lowercased, is one of
"lax", "strict", "no_restriction", "none", mapped to "Lax", "Strict",
"None", "None" respectively; an `expires` timestamp is present exactly
when the cookie is not session-scoped and `expirationDate` is present, and
then carries that date. -/
theorem normalize_cookie_schema (cs : List RawCookie) (c : RawCookie)
    (hmem : c ∈ cs) :
    normalize_cookie c ∈ normalize_cookies cs ∧
    (normalize_cookie c).name = c.name ∧
    (normalize_cookie c).value = c.value ∧
    (normalize_cookie c).domain = c.domain ∧
    (normalize_cookie c).path = c.path.getD "/" ∧
    (normalize_cookie c).httpOnly = c.httpOnly.getD false ∧
    (normalize_cookie c).secure = c.secure.getD true ∧
    ((normalize_cookie c).sameSite.isSome = true ↔
      ∃ s, c.sameSite = some s ∧ (lowerStr s = "lax" ∨ lowerStr s = "strict" ∨
        lowerStr s = "no_restriction" ∨ lowerStr s = "none")) ∧
    (∀ s, c.sameSite = some s →
      (lowerStr s = "lax" → (normalize_cookie c).sameSite = some "Lax") ∧
      (lowerStr s = "strict" → (normalize_cookie c).sameSite = some "Strict") ∧
      (lowerStr s = "no_restriction" → (normalize_cookie c).sameSite = some "None") ∧
      (lowerStr s = "none" → (normalize_cookie c).sameSite = some "None")) ∧
    ((normalize_cookie c).expires.isSome = true ↔
      (c.session.getD false = false ∧ c.expirationDate.isSome = true)) ∧
    ((normalize_cookie c).expires.isSome = true →
      (normalize_cookie c).expires = c.expirationDate) := by
  refine ⟨List.mem_map_of_mem _ hmem, rfl, rfl, rfl, rfl, rfl, rfl, ?_, ?_, ?_, ?_⟩
  · rcases hss : c.sameSite with _ | s
    · simp [normalize_cookie, hss]
    · simp only [normalize_cookie, hss]
      constructor
      · intro hsome
        refine ⟨s, rfl, ?_⟩
        by_cases h1 : lowerStr s = "lax"
        · exact Or.inl h1
        by_cases h2 : lowerStr s = "strict"
        · exact Or.inr (Or.inl h2)
        by_cases h3 : lowerStr s = "no_restriction"
        · exact Or.inr (Or.inr (Or.inl h3))
        by_cases h4 : lowerStr s = "none"
        · exact Or.inr (Or.inr (Or.inr h4))
        exfalso
        simp [lookupStr, same_site_map, h1, h2, h3, h4] at hsome
      · rintro ⟨s2, hs2, hcases⟩
        injection hs2 with hs2e
        subst hs2e
        rcases hcases with hc | hc | hc | hc <;>
          simp [lookupStr, same_site_map, hc]
  · intro s hs
    refine ⟨?_, ?_, ?_, ?_⟩ <;> intro heq <;>
      simp [normalize_cookie, hs, lookupStr, same_site_map, heq]
  · rcases hsession : c.session with _ | b
    · rcases hexp : c.expirationDate with _ | d <;>
        simp [normalize_cookie, hsession, hexp]
    · cases b <;> rcases hexp : c.expirationDate with _ | d <;>
        simp [normalize_cookie, hsession, hexp]
  · intro hsome
    by_cases hc : (!(c.session.getD false) && c.expirationDate.isSome) = true
    · simp [normalize_cookie, hc]
    · simp [normalize_cookie, hc] at hsome

theorem normalize_cookie_schema_witness :
    (normalize_cookie
      ⟨"c_user", "100", ".facebook.com", none, some true, none,
        some "no_restriction", some false, some 1760000000⟩).sameSite = some "None" :=
  (((normalize_cookie_schema
      [⟨"c_user", "100", ".facebook.com", none, some true, none,
        some "no_restriction", some false, some 1760000000⟩]
      ⟨"c_user", "100", ".facebook.com", none, some true, none,
        some "no_restriction", some false, some 1760000000⟩
      (by simp)).2.2.2.2.2.2.2.2.1 "no_restriction" rfl).2.2.1) rfl

/-- C10: `apply_listing_globals` stores the record's model string in both
the model global and the make-input global (`MAKE_INPUT_VALUE` is set from
`config.model` at src line 1633, not from `config.make`), while the
record's make value goes only to `TOYOTA_INPUT_VALUE`; consequently the
value `patch_dom` writes into the control addressed by the make input id
(src lines 1099-1102) is the model text. -/
theorem make_input_receives_model (g : Globals) (c : ListingConfig) :
    apply_listing_globals g c =
      { TARGET_TEXT := c.vehicle_type
        TARGET_YEAR_TEXT := c.year
        MAKE_INPUT_VALUE := c.model
        TOYOTA_INPUT_VALUE := c.make
        MODEL_INPUT_VALUE := c.model
        PRICE_INPUT_VALUE := c.price
        MILEAGE_INPUT_VALUE := c.mileage
        DESCRIPTION_TEXT := c.description
        LOCATION_TEXT := c.location } ∧
    (apply_listing_globals g c).MAKE_INPUT_VALUE = c.model ∧
    (apply_listing_globals g c).TOYOTA_INPUT_VALUE = c.make ∧
    makeInputWrittenValue (patchDomArgsOf (apply_listing_globals g c)) = c.model :=
  ⟨rfl, rfl, rfl, rfl⟩
